import Mathlib

/-!
Shallow embedding of `src/extension.ts` of the sorbet-lsp editor extension:
the command builder, the shell-aware spawner `spawnWithBash`, and the
lifecycle entry points `startLanguageServer`, `restartLanguageServer` and
`deactivate`.  Asynchronous behaviour is modelled as explicit event traces;
JavaScript exceptions (`undefined.trim()`) as `Except Unit`.
-/

namespace SorbetLsp

/-- JavaScript `v || d` for string-valued configuration entries: `undefined`
(modelled as `none`) and the empty string are falsy and fall back to the
default. -/
def strOr (v : Option String) (d : String) : String :=
  match v with
  | none => d
  | some s => if s = "" then d else s

/-- JavaScript `s.trim()`: strip whitespace from both ends of the string
(restricted to the ASCII whitespace relevant here). -/
def jsTrim (s : String) : String :=
  ⟨((s.data.dropWhile Char.isWhitespace).reverse.dropWhile Char.isWhitespace).reverse⟩

/-- JavaScript `s.endsWith(suffix)`. -/
def strEndsWith (s suffix : String) : Bool :=
  suffix.data.isSuffixOf s.data

/-- The configuration values read from `vscode.workspace.getConfiguration('sorbet')`.
`commandPath`, `bundlerPath` and `commandOptions` are `undefined` when unset
(`none`); the code applies `|| 'srb'` / `|| 'bundle'` defaults to the first
two but calls `.trim()` on `commandOptions` without a default. -/
structure SorbetConfig where
  commandPath : Option String
  useBundler : Bool
  useWatchman : Bool
  bundlerPath : Option String
  commandOptions : Option String
  deriving DecidableEq, Repr

/-- The command-builder part of `startLanguageServer` (the `cmd` array built
from the configuration).  `.error ()` models the `TypeError` thrown by
`vsconfig.commandOptions.trim()` when `commandOptions` is `undefined`. -/
def buildCmd (cfg : SorbetConfig) : Except Unit (List String) :=
  match cfg.commandOptions with
  | none => .error ()
  | some raw =>
    let commandOptions := jsTrim raw
    let cmd : List String :=
      if cfg.useBundler then [strOr cfg.bundlerPath "bundle", "exec", "srb"]
      else [strOr cfg.commandPath "srb"]
    let cmd := cmd ++ ["tc", "--lsp"]
    let cmd :=
      if commandOptions ≠ "" then cmd ++ [commandOptions]
      else cmd ++ ["--enable-all-experimental-lsp-features"]
    let cmd := if !cfg.useWatchman then cmd ++ ["--disable-watchman"] else cmd
    .ok cmd

/-- Observable events of the lifecycle code: the `client.stop()` handshake
being requested and its promise resolving, `disposableClient.dispose()`,
`showInformationMessage`, `client.start()` and the child-process spawn that
the client's `serverOptions` callback performs. -/
inductive Event where
  | stopRequested : Event
  | stopCompleted : Event
  | disposed : Event
  | infoNotice : String → Event
  | clientStarted : Event
  | spawned : Event
  deriving DecidableEq, Repr

/-- The two module-level mutable bindings of `extension.ts`:
`disposableClient` (set by a successful `startLanguageServer`) and the
module-level `client`. -/
structure LifecycleState where
  disposableClient : Bool
  client : Bool
  deriving DecidableEq, Repr

/-- The message shown when `<workspace>/sorbet/config` does not exist. -/
def configNotFoundMsg : String :=
  "Sorbet config not found. Sorbet server will not be started"

/-- `startLanguageServer`: builds the command (which may throw), then checks
`existsSync(workspace + "/sorbet/config")`; if the marker file is missing it
shows one information message and returns with the state untouched, otherwise
it creates and starts the language client (which spawns the server process). -/
def startLanguageServer (cfg : SorbetConfig) (configFileExists : Bool)
    (st : LifecycleState) : Except Unit (LifecycleState × List Event) :=
  match buildCmd cfg with
  | .error e => .error e
  | .ok _cmd =>
    if configFileExists then
      .ok ({ disposableClient := true, client := true },
           [Event.clientStarted, Event.spawned])
    else
      .ok (st, [Event.infoNotice configNotFoundMsg])

/-- `restartLanguageServer`: when `disposableClient` is set, awaits
`client.stop()` (its promise resolves), disposes the old client, and only
then calls `startLanguageServer` again; otherwise it starts directly. -/
def restartLanguageServer (cfg : SorbetConfig) (configFileExists : Bool)
    (st : LifecycleState) : Except Unit (LifecycleState × List Event) :=
  if st.disposableClient then
    match startLanguageServer cfg configFileExists st with
    | .error e => .error e
    | .ok (st', evs) =>
      .ok (st', Event.stopRequested :: Event.stopCompleted :: Event.disposed :: evs)
  else
    startLanguageServer cfg configFileExists st

/-- `deactivate`: returns `undefined` immediately when no client was ever
created, otherwise returns `client.stop()`, which completes the shutdown
handshake. -/
def deactivate (st : LifecycleState) : List Event :=
  if st.client then [Event.stopRequested, Event.stopCompleted] else []

/-- Every occurrence of `a` in the trace `l` strictly precedes every
occurrence of `b`. -/
def precedes (a b : Event) (l : List Event) : Prop :=
  ∀ i j : Fin l.length, l.get i = a → l.get j = b → (i : ℕ) < (j : ℕ)

instance (a b : Event) (l : List Event) : Decidable (precedes a b l) := by
  unfold precedes; infer_instance

/-- `pat` occurs as a substring of `s` (model of JavaScript
`s.match(/pat/) !== null` for a literal pattern). -/
def strContains (s pat : String) : Bool :=
  (List.range (s.length + 1)).any fun i => pat.toList.isPrefixOf (s.toList.drop i)

/-- `platform().match(/darwin|linux/)`. -/
def isUnixLike (plat : String) : Bool :=
  strContains plat "darwin" || strContains plat "linux"

/-- `env.shell || '/bin/bash'`. -/
def resolveShell (envShell : Option String) : String :=
  strOr envShell "/bin/bash"

/-- `shell.endsWith('bash') || shell.endsWith('zsh')`. -/
def isBashOrZsh (shell : String) : Bool :=
  strEndsWith shell "bash" || strEndsWith shell "zsh"

/-- The external `shell-escape` library escapes each token and joins the
escaped tokens with single spaces; the per-token escaping is abstracted as
`escTok`. -/
def shellEscape (escTok : String → String) (tokens : List String) : String :=
  String.intercalate " " (tokens.map escTok)

/-- The observable effect of one spawn call: the program invoked (`none`
models `cmd.shift()` on an empty array yielding `undefined`), its argument
vector, the `shell` option passed through to `child_process.spawn`, the
working directory, and whether the cross-platform `cross-spawn` primitive
was used instead of a shell wrapper. -/
structure SpawnResult where
  prog : Option String
  args : List String
  shellOpt : Option String
  cwd : Option String
  viaCrossSpawn : Bool
  deriving DecidableEq, Repr

/-- `spawnWithBash(cmd, opts)`.  The second component of the result is the
state of the caller's `cmd` array after the call: `cmd.shift()` on the
direct-spawn path mutates it in place, the shell path leaves it intact. -/
def spawnWithBash (escTok : String → String) (plat : String)
    (envShell : Option String) (cmd : List String) (cwd : Option String) :
    SpawnResult × List String :=
  if isUnixLike plat then
    let shell := resolveShell envShell
    if isBashOrZsh shell then
      let shellCmd := shellEscape escTok cmd
      let shellCmd :=
        match cwd with
        | some d => shellEscape escTok ["cd", d] ++ " && " ++ shellCmd
        | none => shellCmd
      ({ prog := some shell, args := ["-l", "-c", shellCmd],
         shellOpt := some shell, cwd := cwd, viaCrossSpawn := false }, cmd)
    else
      ({ prog := cmd.head?, args := cmd.tail, shellOpt := none, cwd := cwd,
         viaCrossSpawn := true }, cmd.tail)
  else
    ({ prog := cmd.head?, args := cmd.tail, shellOpt := none, cwd := cwd,
       viaCrossSpawn := true }, cmd.tail)

/-- The default tokens appended when `commandOptions` trims to the empty
string, and the watcher-disabling flag. -/
def defaultLspFlag : String := "--enable-all-experimental-lsp-features"

/-- A configuration whose `commandOptions` value is literally the
watcher-disabling flag. -/
def watchmanClashConfig : SorbetConfig :=
  { commandPath := none, useBundler := false, useWatchman := true,
    bundlerPath := none, commandOptions := some "--disable-watchman" }

/-- C2: whenever the builder runs to completion, its output starts with
`[bundlerPath or "bundle", "exec", "srb"]` when `useBundler` is set and with
`[commandPath or "srb"]` otherwise, immediately followed by the fixed
`"tc", "--lsp"` tokens. -/
theorem buildCmd_prefix_tokens (cfg : SorbetConfig) (raw : String)
    (h : cfg.commandOptions = some raw) :
    ∃ rest, buildCmd cfg = .ok
      ((if cfg.useBundler then [strOr cfg.bundlerPath "bundle", "exec", "srb"]
        else [strOr cfg.commandPath "srb"]) ++ ["tc", "--lsp"] ++ rest) := by
  refine ⟨(if jsTrim raw = "" then [defaultLspFlag] else [jsTrim raw]) ++
      (if !cfg.useWatchman then ["--disable-watchman"] else []), ?_⟩
  unfold buildCmd
  rw [h]
  by_cases ht : jsTrim raw = "" <;> cases hb : cfg.useBundler <;>
    cases hw : cfg.useWatchman <;>
      simp [ht, hb, hw, defaultLspFlag]

/-- Witness for C2 at a concrete bundler configuration. -/
theorem buildCmd_prefix_tokens_witness :
    ∃ rest,
      buildCmd ⟨none, true, true, none, some ""⟩ = .ok
        ((if (⟨none, true, true, none, some ""⟩ : SorbetConfig).useBundler then
            [strOr (⟨none, true, true, none, some ""⟩ : SorbetConfig).bundlerPath "bundle",
              "exec", "srb"]
          else [strOr (⟨none, true, true, none, some ""⟩ : SorbetConfig).commandPath "srb"]) ++
          ["tc", "--lsp"] ++ rest) :=
  buildCmd_prefix_tokens ⟨none, true, true, none, some ""⟩ "" rfl

/-- C5: a whitespace-only `commandOptions` behaves exactly like the empty
string — the same command is produced and the default
experimental-features flag is appended. -/
theorem buildCmd_whitespace_commandOptions (cfg : SorbetConfig) :
    buildCmd { cfg with commandOptions := some "  " } =
      buildCmd { cfg with commandOptions := some "" } ∧
    ∃ cmd, buildCmd { cfg with commandOptions := some "  " } = .ok cmd ∧
      defaultLspFlag ∈ cmd := by
  have ht : jsTrim "  " = "" := by decide
  have ht0 : jsTrim "" = "" := by decide
  constructor
  · unfold buildCmd
    simp [ht, ht0]
  · refine ⟨((if cfg.useBundler then [strOr cfg.bundlerPath "bundle", "exec", "srb"]
        else [strOr cfg.commandPath "srb"]) ++ ["tc", "--lsp"] ++ [defaultLspFlag] ++
        (if !cfg.useWatchman then ["--disable-watchman"] else [])), ?_, ?_⟩
    · unfold buildCmd
      cases hb : cfg.useBundler <;> cases hw : cfg.useWatchman <;>
        simp [ht, hb, hw, defaultLspFlag]
    · cases hb : cfg.useBundler <;> simp

/-- C6 counterexample: with `useWatchman = true` but
`commandOptions = "--disable-watchman"`, the builder's output nevertheless
contains the disable-watcher flag (it is passed through verbatim as the
options token), refuting "for useWatchman = true it does not appear
anywhere in the argv". -/
theorem buildCmd_watchman_counterexample :
    watchmanClashConfig.useWatchman = true ∧
    buildCmd watchmanClashConfig = .ok ["srb", "tc", "--lsp", "--disable-watchman"] ∧
    "--disable-watchman" ∈ ["srb", "tc", "--lsp", "--disable-watchman"] :=
  ⟨rfl, rfl, by decide⟩

/-- C6 amended: provided none of the configured strings (`commandPath`,
`bundlerPath`, trimmed `commandOptions`) is itself the literal
`"--disable-watchman"`, the builder's output contains the flag iff
`useWatchman` is falsy: for `useWatchman = false` it is the last token, and
for `useWatchman = true` it does not appear. -/
theorem buildCmd_watchman_flag (cfg : SorbetConfig) (raw : String)
    (h : cfg.commandOptions = some raw)
    (h1 : strOr cfg.commandPath "srb" ≠ "--disable-watchman")
    (h2 : strOr cfg.bundlerPath "bundle" ≠ "--disable-watchman")
    (h3 : jsTrim raw ≠ "--disable-watchman") :
    ∃ cmd, buildCmd cfg = .ok cmd ∧
      (cfg.useWatchman = false → cmd.getLast? = some "--disable-watchman") ∧
      (cfg.useWatchman = true → "--disable-watchman" ∉ cmd) := by
  refine ⟨((if cfg.useBundler then [strOr cfg.bundlerPath "bundle", "exec", "srb"]
      else [strOr cfg.commandPath "srb"]) ++ ["tc", "--lsp"] ++
      (if jsTrim raw = "" then [defaultLspFlag] else [jsTrim raw]) ++
      (if !cfg.useWatchman then ["--disable-watchman"] else [])), ?_, ?_, ?_⟩
  · unfold buildCmd
    rw [h]
    by_cases ht : jsTrim raw = "" <;> cases hb : cfg.useBundler <;>
      cases hw : cfg.useWatchman <;>
        simp [ht, hb, hw, defaultLspFlag]
  · intro hw
    by_cases ht : jsTrim raw = "" <;> cases hb : cfg.useBundler <;>
      simp [ht, hb, hw]
  · intro hw
    have h1' : "--disable-watchman" ≠ strOr cfg.commandPath "srb" := fun hx => h1 hx.symm
    have h2' : "--disable-watchman" ≠ strOr cfg.bundlerPath "bundle" := fun hx => h2 hx.symm
    have h3' : "--disable-watchman" ≠ jsTrim raw := fun hx => h3 hx.symm
    by_cases ht : jsTrim raw = "" <;> cases hb : cfg.useBundler <;>
      simp [ht, hb, hw, defaultLspFlag, h1', h2', h3']

/-- Witness for C6's amended theorem at a concrete configuration. -/
theorem buildCmd_watchman_flag_witness :
    ∃ cmd, buildCmd ⟨none, false, false, none, some ""⟩ = .ok cmd ∧
      ((⟨none, false, false, none, some ""⟩ : SorbetConfig).useWatchman = false →
        cmd.getLast? = some "--disable-watchman") ∧
      ((⟨none, false, false, none, some ""⟩ : SorbetConfig).useWatchman = true →
        "--disable-watchman" ∉ cmd) :=
  buildCmd_watchman_flag ⟨none, false, false, none, some ""⟩ "" rfl
    (by decide) (by decide) (by decide)

/-- C10: the builder applies no default to `commandOptions`: when it is
absent, the `.trim()` call throws, so `startLanguageServer` aborts before
any argv is built or any process is spawned — while an absent `commandPath`
or `bundlerPath` never makes the builder throw. -/
theorem commandOptions_no_default (cfg : SorbetConfig) (configFileExists : Bool)
    (st : LifecycleState) (h : cfg.commandOptions = none) :
    startLanguageServer cfg configFileExists st = .error () ∧
    buildCmd cfg = .error () ∧
    ∀ raw : String, buildCmd { cfg with commandOptions := some raw } ≠ .error () := by
  refine ⟨?_, ?_, ?_⟩
  · simp [startLanguageServer, buildCmd, h]
  · simp [buildCmd, h]
  · intro raw
    simp [buildCmd]

/-- Witness for C10 at a configuration with `commandOptions` unset. -/
theorem commandOptions_no_default_witness :
    startLanguageServer ⟨none, false, false, none, none⟩ true ⟨false, false⟩ = .error () ∧
    buildCmd ⟨none, false, false, none, none⟩ = .error () ∧
    ∀ raw : String,
      buildCmd { (⟨none, false, false, none, none⟩ : SorbetConfig) with
                  commandOptions := some raw } ≠ .error () :=
  commandOptions_no_default ⟨none, false, false, none, none⟩ true ⟨false, false⟩ rfl

/-- C3: on a Unix-like OS with a bash/zsh shell, the spawner invokes the
resolved shell with arguments `["-l", "-c", cmdString]`, where `cmdString`
is every argv token escaped and joined with spaces, prefixed — when a
working directory is set — by the separately escaped `cd <dir>` segment
joined with `" && "`; the shell is also passed as the `shell` spawn
option. -/
theorem spawnWithBash_shell_wrapping (escTok : String → String) (plat : String)
    (envShell : Option String) (cmd : List String) (cwd : Option String)
    (h1 : isUnixLike plat = true) (h2 : isBashOrZsh (resolveShell envShell) = true) :
    (spawnWithBash escTok plat envShell cmd cwd).1 =
      { prog := some (resolveShell envShell),
        args := ["-l", "-c",
          match cwd with
          | some d => String.intercalate " " [escTok "cd", escTok d] ++ " && " ++
              String.intercalate " " (cmd.map escTok)
          | none => String.intercalate " " (cmd.map escTok)],
        shellOpt := some (resolveShell envShell),
        cwd := cwd, viaCrossSpawn := false } := by
  unfold spawnWithBash
  cases cwd <;> simp [h1, h2, shellEscape]

/-- Witness for C3: zsh on linux with cwd `/proj` and argv
`["srb","tc","--lsp"]` (per-token escaping instantiated with the identity)
yields the shell invocation `-l -c "cd /proj && srb tc --lsp"`. -/
theorem spawnWithBash_shell_wrapping_witness :
    (spawnWithBash (fun s => s) "linux" (some "/bin/zsh") ["srb", "tc", "--lsp"]
        (some "/proj")).1 =
      { prog := some "/bin/zsh", args := ["-l", "-c", "cd /proj && srb tc --lsp"],
        shellOpt := some "/bin/zsh", cwd := some "/proj", viaCrossSpawn := false } := by
  have h := spawnWithBash_shell_wrapping (fun s => s) "linux" (some "/bin/zsh")
      ["srb", "tc", "--lsp"] (some "/proj") (by decide) (by decide)
  rw [h]
  decide

/-- C7: with a non-bash/zsh shell on a Unix-like OS, or on any other OS, the
spawner invokes the argv's first token directly with the remaining tokens as
arguments — no shell wrapping, no `shell` option, no escaping. -/
theorem spawnWithBash_direct (escTok : String → String) (plat : String)
    (envShell : Option String) (cmd : List String) (cwd : Option String)
    (h : isUnixLike plat = false ∨ isBashOrZsh (resolveShell envShell) = false) :
    (spawnWithBash escTok plat envShell cmd cwd).1 =
      { prog := cmd.head?, args := cmd.tail, shellOpt := none, cwd := cwd,
        viaCrossSpawn := true } := by
  unfold spawnWithBash
  rcases h with h | h
  · simp [h]
  · by_cases hp : isUnixLike plat <;> simp [hp, h]

/-- Witness for C7 on a non-Unix platform. -/
theorem spawnWithBash_direct_witness :
    (spawnWithBash (fun s => s) "win32" none ["srb", "tc", "--lsp"] none).1 =
      { prog := (["srb", "tc", "--lsp"] : List String).head?,
        args := (["srb", "tc", "--lsp"] : List String).tail, shellOpt := none,
        cwd := none, viaCrossSpawn := true } :=
  spawnWithBash_direct (fun s => s) "win32" none ["srb", "tc", "--lsp"] none
    (Or.inl (by decide))

/-- C9: on the direct-spawn path `cmd.shift()` mutates the caller's argv
array: the array left behind is not the original one, and a second call on
that same array invokes the original second token as the program. -/
theorem spawnWithBash_direct_mutation (escTok : String → String) (plat : String)
    (envShell : Option String) (cmd : List String) (cwd : Option String)
    (h : isUnixLike plat = false ∨ isBashOrZsh (resolveShell envShell) = false)
    (hlen : 2 ≤ cmd.length) :
    (spawnWithBash escTok plat envShell cmd cwd).2 ≠ cmd ∧
    (spawnWithBash escTok plat envShell
        ((spawnWithBash escTok plat envShell cmd cwd).2) cwd).1.prog = cmd[1]? := by
  have hstep : ∀ l : List String, (spawnWithBash escTok plat envShell l cwd).2 = l.tail ∧
      (spawnWithBash escTok plat envShell l cwd).1.prog = l.head? := by
    intro l
    rcases h with h | h
    · simp [spawnWithBash, h]
    · by_cases hp : isUnixLike plat <;> simp [spawnWithBash, hp, h]
  rcases cmd with _ | ⟨a, cmd'⟩
  · simp at hlen
  rcases cmd' with _ | ⟨b, rest⟩
  · simp at hlen
  constructor
  · rw [(hstep _).1]
    intro heq
    have hl := congrArg List.length heq
    simp at hl
  · rw [(hstep _).1, (hstep _).2]
    simp

/-- Witness for C9: two successive direct-path calls sharing the argv array
end up spawning the original second token. -/
theorem spawnWithBash_direct_mutation_witness :
    (spawnWithBash (fun s => s) "win32" none ["srb", "tc", "--lsp"] none).2 ≠
      ["srb", "tc", "--lsp"] ∧
    (spawnWithBash (fun s => s) "win32" none
        ((spawnWithBash (fun s => s) "win32" none ["srb", "tc", "--lsp"] none).2)
        none).1.prog = (["srb", "tc", "--lsp"] : List String)[1]? :=
  spawnWithBash_direct_mutation (fun s => s) "win32" none ["srb", "tc", "--lsp"] none
    (Or.inl (by decide)) (by decide)

/-- Recognises the informational-notice events of a trace. -/
def isInfoNotice : Event → Bool
  | Event.infoNotice _ => true
  | _ => false

/-- C4: when the `sorbet/config` marker file is missing, `startLanguageServer`
leaves the state untouched and its whole trace is a single event, which is an
informational notice and not a spawn or client start. -/
theorem start_missing_config (cfg : SorbetConfig) (raw : String) (st : LifecycleState)
    (h : cfg.commandOptions = some raw) :
    startLanguageServer cfg false st = .ok (st, [Event.infoNotice configNotFoundMsg]) ∧
    Event.spawned ∉ [Event.infoNotice configNotFoundMsg] ∧
    Event.clientStarted ∉ [Event.infoNotice configNotFoundMsg] ∧
    ([Event.infoNotice configNotFoundMsg].filter isInfoNotice).length = 1 := by
  refine ⟨?_, by decide, by decide, by decide⟩
  simp [startLanguageServer, buildCmd, h]

/-- Witness for C4 at a concrete configuration, from the Idle state. -/
theorem start_missing_config_witness :
    startLanguageServer ⟨none, false, false, none, some ""⟩ false ⟨false, false⟩ =
      .ok (⟨false, false⟩, [Event.infoNotice configNotFoundMsg]) ∧
    Event.spawned ∉ [Event.infoNotice configNotFoundMsg] ∧
    Event.clientStarted ∉ [Event.infoNotice configNotFoundMsg] ∧
    ([Event.infoNotice configNotFoundMsg].filter isInfoNotice).length = 1 :=
  start_missing_config ⟨none, false, false, none, some ""⟩ "" ⟨false, false⟩ rfl

/-- C8: `deactivate` is callable from any state; with no client ever created
it returns immediately with no shutdown events, otherwise it performs the
stop handshake and its trace ends with the handshake's completion. -/
theorem deactivate_any_state (st : LifecycleState) :
    (st.client = false → deactivate st = []) ∧
    (st.client = true →
      deactivate st = [Event.stopRequested, Event.stopCompleted]) := by
  cases h : st.client <;> simp [deactivate, h]

/-- Witness for C8 in the never-started and the running state. -/
theorem deactivate_any_state_witness :
    deactivate ⟨false, false⟩ = [] ∧
    deactivate ⟨true, true⟩ = [Event.stopRequested, Event.stopCompleted] :=
  ⟨(deactivate_any_state ⟨false, false⟩).1 rfl,
   (deactivate_any_state ⟨true, true⟩).2 rfl⟩

/-- C1: whenever `restartLanguageServer` runs with an existing connection
handle, the old client's stop handshake completes and the old client is
disposed strictly before any event of the new start sequence (the client
start and the process spawn) occurs in the trace. -/
theorem restart_stop_before_spawn (cfg : SorbetConfig) (configFileExists : Bool)
    (st st' : LifecycleState) (evs : List Event)
    (hhandle : st.disposableClient = true)
    (hrun : restartLanguageServer cfg configFileExists st = .ok (st', evs)) :
    Event.stopCompleted ∈ evs ∧
    precedes Event.stopCompleted Event.clientStarted evs ∧
    precedes Event.stopCompleted Event.spawned evs ∧
    precedes Event.disposed Event.clientStarted evs ∧
    precedes Event.disposed Event.spawned evs := by
  unfold restartLanguageServer at hrun
  rw [hhandle] at hrun
  unfold startLanguageServer buildCmd at hrun
  cases hco : cfg.commandOptions with
  | none =>
    rw [hco] at hrun
    simp at hrun
  | some raw =>
    rw [hco] at hrun
    cases configFileExists <;> simp at hrun <;> obtain ⟨h1, h2⟩ := hrun <;> subst h2 <;>
      exact ⟨by decide, by decide, by decide, by decide, by decide⟩

/-- Witness for C1: a concrete restart from the running state; the resulting
trace is `[stopRequested, stopCompleted, disposed, clientStarted, spawned]`. -/
theorem restart_stop_before_spawn_witness :
    Event.stopCompleted ∈ [Event.stopRequested, Event.stopCompleted, Event.disposed,
      Event.clientStarted, Event.spawned] ∧
    precedes Event.stopCompleted Event.clientStarted [Event.stopRequested,
      Event.stopCompleted, Event.disposed, Event.clientStarted, Event.spawned] ∧
    precedes Event.stopCompleted Event.spawned [Event.stopRequested,
      Event.stopCompleted, Event.disposed, Event.clientStarted, Event.spawned] ∧
    precedes Event.disposed Event.clientStarted [Event.stopRequested,
      Event.stopCompleted, Event.disposed, Event.clientStarted, Event.spawned] ∧
    precedes Event.disposed Event.spawned [Event.stopRequested,
      Event.stopCompleted, Event.disposed, Event.clientStarted, Event.spawned] :=
  restart_stop_before_spawn ⟨none, false, false, none, some ""⟩ true
    ⟨true, true⟩ ⟨true, true⟩
    [Event.stopRequested, Event.stopCompleted, Event.disposed,
      Event.clientStarted, Event.spawned] rfl rfl

end SorbetLsp
